import Mathlib

/-!
Verification of the trash-trade simulated perpetual-futures trading engine.

This file gives a shallow embedding, in Lean 4, of the parts of the Python
source that the checked claims are about:

* `backend/indicators/specs.py` — the indicator spec classes
  (`EmaSpec`, `RsiSpec`, `MacdSpec`, `AtrSpec`) and `IndicatorResult`;
* `backend/indicators/engine.py` — `IndicatorEngine.update_on_close` and
  `IndicatorEngine.preview`;
* `backend/marketdata/state.py` — `MarketStateManager.on_kline_close`;
* `backend/services/position_service.py` — `open_position`,
  `close_by_action`, `load_open_positions`;
* `backend/services/portfolio_service.py` — `apply_funding` and the
  funding idempotency invariant;
* `backend/strategy/runner.py` — `StrategyRunner.on_kline_close` and its
  per-strategy error guards.

Python floats are embedded as exact rationals (`ℚ`); the claims under
check are about the algebraic structure of the computations, not about
rounding.  Python dictionaries are embedded as insertion-ordered
association lists.  Code that can raise a Python exception is embedded in
`Except PyError`; in particular, referencing an unbound local name is a
`NameError` and calling a method a class does not define is an
`AttributeError`, exactly as in CPython.
-/

/-- Python runtime errors that the embedded code can raise. -/
inductive PyError where
  | nameError : String → PyError
  | attributeError : String → PyError
  | typeError : String → PyError
  deriving DecidableEq, Repr

/-- Insertion-ordered dictionary lookup (`d.get(k)`). -/
def dictGet {α : Type} (m : List (String × α)) (k : String) : Option α :=
  (m.find? (fun p => p.1 = k)).map (fun p => p.2)

/-- Insertion-ordered dictionary assignment (`d[k] = v`): replaces in place
when the key exists, appends otherwise, as a CPython dict does. -/
def dictInsert {α : Type} (m : List (String × α)) (k : String) (v : α) :
    List (String × α) :=
  if m.any (fun p => p.1 = k) then
    m.map (fun p => if p.1 = k then (k, v) else p)
  else
    m ++ [(k, v)]

/-- One kline bar (`backend/marketdata/buffer.py`, `KlineBar`).  The Python
field `open` is spelled `open_` because `open` is a Lean keyword. -/
structure KlineBar where
  open_time : Int
  close_time : Int
  open_ : ℚ
  high : ℚ
  low : ℚ
  close : ℚ
  volume : ℚ
  trades : Int
  is_closed : Bool
  source : String
  deriving DecidableEq, Repr

/-- `backend/indicators/specs.py`, `IndicatorResult`.  The `extras` dict
only ever carries optional scalars (`macd` / `signal`). -/
structure IndicatorResult where
  name : String
  value : Option ℚ
  history : List ℚ := []
  extras : List (String × Option ℚ) := []
  deriving DecidableEq, Repr

/-- The history-ring trim step shared by the specs:
`if len(self._history) > self.history_size: self._history.pop(0)`
(run right after a single append, so one pop suffices). -/
def trimHistory (h : List ℚ) (size : ℕ) : List ℚ :=
  if h.length > size then h.tail else h

/-- `backend/indicators/specs.py`, class `EmaSpec` (mutable state). -/
structure EmaSpec where
  name : String
  interval : String
  length : ℕ
  ema : Option ℚ := none
  history : List ℚ := []
  deriving DecidableEq, Repr

def EmaSpec.warmup_bars (s : EmaSpec) : ℕ := max 2 (s.length + 1)

def EmaSpec.history_size (_s : EmaSpec) : ℕ := 3

/-- `EmaSpec.update`: seed with the first close, then
`ema ← price·k + ema·(1−k)` with `k = 2/(length+1)`. -/
def EmaSpec.update (s : EmaSpec) (bar : KlineBar) : EmaSpec × IndicatorResult :=
  let price := bar.close
  let ema : ℚ :=
    match s.ema with
    | none => price
    | some prev =>
        let k : ℚ := 2 / ((s.length : ℚ) + 1)
        price * k + prev * (1 - k)
  let history := trimHistory (s.history ++ [ema]) s.history_size
  ({ s with ema := some ema, history := history },
   { name := s.name, value := some ema, history := history })

/-- `backend/indicators/specs.py`, class `RsiSpec` (mutable state). -/
structure RsiSpec where
  name : String
  interval : String
  length : ℕ
  avg_gain : Option ℚ := none
  avg_loss : Option ℚ := none
  last_close : Option ℚ := none
  history : List ℚ := []
  deriving DecidableEq, Repr

def RsiSpec.warmup_bars (s : RsiSpec) : ℕ := s.length + 1

def RsiSpec.history_size (_s : RsiSpec) : ℕ := 3

/-- `RsiSpec.update`.  On the first close it only stores `last_close` and
returns a null value.  Afterwards it applies Wilder smoothing; the source
line
`rs = None if self._avg_loss == 0 else self._avg_gain / self._avg_loss if self._avg_loss else None`
makes `rs` (and hence the returned value) `None` whenever the updated
average loss is zero. -/
def RsiSpec.update (s : RsiSpec) (bar : KlineBar) : RsiSpec × IndicatorResult :=
  let close := bar.close
  match s.last_close with
  | none =>
      ({ s with last_close := some close },
       { name := s.name, value := none, history := s.history })
  | some lc =>
      let change := close - lc
      let gain := max change 0
      let loss := max (-change) 0
      let p : ℚ × ℚ :=
        match s.avg_gain, s.avg_loss with
        | some ag, some al =>
            ((ag * ((s.length : ℚ) - 1) + gain) / (s.length : ℚ),
             (al * ((s.length : ℚ) - 1) + loss) / (s.length : ℚ))
        | _, _ => (gain, loss)
      let avg_gain := p.1
      let avg_loss := p.2
      let rs : Option ℚ := if avg_loss = 0 then none else some (avg_gain / avg_loss)
      let rsi : Option ℚ := rs.map (fun r => 100 - 100 / (1 + r))
      let history :=
        match rsi with
        | some v => trimHistory (s.history ++ [v]) s.history_size
        | none => s.history
      ({ s with avg_gain := some avg_gain, avg_loss := some avg_loss,
                last_close := some close, history := history },
       { name := s.name, value := rsi, history := history })

/-- `backend/indicators/specs.py`, class `MacdSpec` (mutable state). -/
structure MacdSpec where
  name : String
  interval : String
  fast : ℕ
  slow : ℕ
  signal_len : ℕ
  ema_fast : Option ℚ := none
  ema_slow : Option ℚ := none
  signal : Option ℚ := none
  history : List ℚ := []
  deriving DecidableEq, Repr

def MacdSpec.warmup_bars (s : MacdSpec) : ℕ := max s.fast s.slow + s.signal_len

def MacdSpec.history_size (_s : MacdSpec) : ℕ := 3

/-- The private helper `MacdSpec._ema`. -/
def MacdSpec.ema_step (prev : Option ℚ) (price : ℚ) (length : ℕ) : ℚ :=
  match prev with
  | none => price
  | some p =>
      let k : ℚ := 2 / ((length : ℚ) + 1)
      price * k + p * (1 - k)

/-- `MacdSpec.update`.  After the two EMA assignments both lines are
always present, so the source's `is not None` guards around `macd_line`,
`signal` and `macd_hist` all pass and the value is never null. -/
def MacdSpec.update (s : MacdSpec) (bar : KlineBar) : MacdSpec × IndicatorResult :=
  let price := bar.close
  let ema_fast := MacdSpec.ema_step s.ema_fast price s.fast
  let ema_slow := MacdSpec.ema_step s.ema_slow price s.slow
  let macd_line := ema_fast - ema_slow
  let signal := MacdSpec.ema_step s.signal macd_line s.signal_len
  let macd_hist := macd_line - signal
  let history := trimHistory (s.history ++ [macd_hist]) s.history_size
  ({ s with ema_fast := some ema_fast, ema_slow := some ema_slow,
            signal := some signal, history := history },
   { name := s.name, value := some macd_hist, history := history,
     extras := [("macd", some macd_line), ("signal", some signal)] })

/-- `backend/indicators/specs.py`, class `AtrSpec` (mutable state). -/
structure AtrSpec where
  name : String
  interval : String
  length : ℕ
  atr : Option ℚ := none
  last_close : Option ℚ := none
  history : List ℚ := []
  deriving DecidableEq, Repr

def AtrSpec.warmup_bars (s : AtrSpec) : ℕ := s.length + 1

def AtrSpec.history_size (_s : AtrSpec) : ℕ := 1

/-- `AtrSpec.update`: first bar uses `high − low` as the true range,
afterwards Wilder smoothing; the history ring is replaced wholesale
(`self._history = [self._atr]`). -/
def AtrSpec.update (s : AtrSpec) (bar : KlineBar) : AtrSpec × IndicatorResult :=
  let tr : ℚ :=
    match s.last_close with
    | none => bar.high - bar.low
    | some lc => max (bar.high - bar.low) (max |bar.high - lc| |bar.low - lc|)
  let atr : ℚ :=
    match s.atr with
    | none => tr
    | some a => (a * ((s.length : ℚ) - 1) + tr) / (s.length : ℚ)
  let history := [atr]
  ({ s with atr := some atr, last_close := some bar.close, history := history },
   { name := s.name, value := some atr, history := history })

/-- The closed set of concrete spec classes registered with the engine
(`EmaSpec` / `RsiSpec` / `MacdSpec` / `AtrSpec`). -/
inductive Spec where
  | ema : EmaSpec → Spec
  | rsi : RsiSpec → Spec
  | macd : MacdSpec → Spec
  | atr : AtrSpec → Spec
  deriving DecidableEq, Repr

def Spec.interval : Spec → String
  | .ema s => s.interval
  | .rsi s => s.interval
  | .macd s => s.interval
  | .atr s => s.interval

def Spec.update : Spec → KlineBar → Spec × IndicatorResult
  | .ema s, bar => let r := s.update bar; (.ema r.1, r.2)
  | .rsi s, bar => let r := s.update bar; (.rsi r.1, r.2)
  | .macd s, bar => let r := s.update bar; (.macd r.1, r.2)
  | .atr s, bar => let r := s.update bar; (.atr r.1, r.2)

/-- Calling `spec.preview(bar)`.  None of the four concrete spec classes in
`backend/indicators/specs.py` defines a `preview` method (the
`IIndicatorSpec` protocol declares only `update`), so in CPython the
attribute lookup fails with `AttributeError` for every spec. -/
def Spec.preview (_s : Spec) (_bar : KlineBar) : Except PyError IndicatorResult :=
  .error (.attributeError "preview")

/-- `backend/indicators/engine.py`, `IndicatorEngine`:
`specs: dict[strategy_id] -> list[IIndicatorSpec]`. -/
structure IndicatorEngine where
  specs : List (String × List Spec)
  deriving DecidableEq, Repr

/-- The inner loop of `IndicatorEngine.update_on_close` for one strategy's
spec list: update every spec whose interval matches, keep the rest
untouched, and collect the produced results in traversal order. -/
def updateSpecList (interval : String) (bar : KlineBar) :
    List Spec → List Spec × List IndicatorResult
  | [] => ([], [])
  | s :: rest =>
      let tail := updateSpecList interval bar rest
      if s.interval = interval then
        let r := s.update bar
        (r.1 :: tail.1, r.2 :: tail.2)
      else
        (s :: tail.1, tail.2)

/-- `IndicatorEngine.update_on_close`: returns the updated engine plus
`{strategy_id: {indicator_name: IndicatorResult}}`; a strategy appears in
the output only if at least one of its specs matched the interval. -/
def IndicatorEngine.update_on_close (e : IndicatorEngine) (interval : String)
    (bar : KlineBar) :
    IndicatorEngine × List (String × List (String × IndicatorResult)) :=
  let step := e.specs.map (fun p => (p.1, updateSpecList interval bar p.2))
  ({ specs := step.map (fun p => (p.1, p.2.1)) },
   step.filterMap (fun p =>
     if p.2.2.isEmpty then none
     else some (p.1, p.2.2.foldl (fun m r => dictInsert m r.name r) [])))

/-- The inner loop of `IndicatorEngine.preview` for one strategy's spec
list: calls `spec.preview(bar)` on every matching spec; the first such call
raises and the exception propagates. -/
def previewSpecList (interval : String) (bar : KlineBar) :
    List Spec → Except PyError (List IndicatorResult)
  | [] => .ok []
  | s :: rest =>
      if s.interval = interval then do
        let r ← s.preview bar
        let rs ← previewSpecList interval bar rest
        pure (r :: rs)
      else
        previewSpecList interval bar rest

/-- The strategy loop of `IndicatorEngine.preview`. -/
def previewStrategies (interval : String) (bar : KlineBar) :
    List (String × List Spec) →
    Except PyError (List (String × List (String × IndicatorResult)))
  | [] => .ok []
  | p :: rest => do
      let rs ← previewSpecList interval bar p.2
      let tail ← previewStrategies interval bar rest
      pure (if rs.isEmpty then tail
            else (p.1, rs.foldl (fun m r => dictInsert m r.name r) []) :: tail)

/-- `IndicatorEngine.preview(interval, bar)`: identical traversal to
`update_on_close` but calling `spec.preview`. -/
def IndicatorEngine.preview (e : IndicatorEngine) (interval : String)
    (bar : KlineBar) :
    Except PyError (List (String × List (String × IndicatorResult))) :=
  previewStrategies interval bar e.specs

/-! ## The position / portfolio layer

`backend/strategy/interfaces.py` dataclasses and the
`backend/services/position_service.py` flows, for a single strategy id:
every operation of the service reads and writes only the entry of
`self._positions` / `self._accounts` / `self._cooldowns` for the strategy
it was called with, so the state is modelled as that strategy's slice.
Persistence is modelled by the open `positions` row the service reads back
(`db.get_open_position`), the list of closed rows, and the append-only
`trades` and `ledger` tables. -/

/-- `backend/strategy/interfaces.py`, `PositionState`. -/
structure PositionState where
  side : String
  entry_price : ℚ
  qty : ℚ
  stop_price : ℚ
  tp1_price : ℚ
  tp2_price : ℚ
  tp1_hit : Bool
  deriving DecidableEq, Repr

/-- `backend/strategy/interfaces.py`, `EntrySignal`. -/
structure EntrySignal where
  side : String
  entry_price : ℚ
  stop_price : ℚ
  tp1_price : ℚ
  tp2_price : ℚ
  reason : String
  deriving DecidableEq, Repr

/-- `backend/strategy/interfaces.py`, `ExitAction`. -/
structure ExitAction where
  action : String
  price : ℚ
  reason : String
  deriving DecidableEq, Repr

/-- `backend/models.py`, `Trade` (append-only). -/
structure Trade where
  strategy : String
  symbol : String
  position_id : ℕ
  side : String
  trade_type : String
  price : ℚ
  qty : ℚ
  notional : ℚ
  fee_amount : ℚ
  fee_rate : ℚ
  timestamp : Int
  reason : String
  created_at : Int
  deriving DecidableEq, Repr

/-- `backend/models.py`, `LedgerEntry` (append-only). -/
structure LedgerEntry where
  strategy : String
  timestamp : Int
  type : String
  amount : ℚ
  currency : String
  symbol : String
  ref : String
  note : String
  created_at : Int
  deriving DecidableEq, Repr

/-- A persisted `positions` row, with the fields the service reads and
writes (`PositionOpen` / `PositionClose` in `backend/models.py`). -/
structure PositionRow where
  position_id : ℕ
  strategy : String
  symbol : String
  side : String
  qty : ℚ
  entry_price : ℚ
  entry_time : Int
  leverage : Int
  margin : ℚ
  stop_price : Option ℚ
  tp1_price : Option ℚ
  tp2_price : Option ℚ
  status : String
  realized_pnl : ℚ
  fees_total : ℚ
  liq_price : Option ℚ
  close_time : Option Int := none
  close_reason : Option String := none
  created_at : Int
  updated_at : Int
  deriving DecidableEq, Repr

/-- One maintenance-margin tier from the `risk.mmr_tiers` profile block. -/
structure MmrTier where
  notional_usdt : ℚ
  mmr : ℚ
  maint_amount : ℚ
  deriving DecidableEq, Repr

/-- The per-strategy configuration values the position / portfolio services
read from the merged profile (with settings fallbacks already applied). -/
structure SimCfg where
  symbol : String
  fee_rate : ℚ
  max_leverage : ℚ
  max_position_notional : ℚ
  max_position_pct_equity : ℚ
  cooldown_after_stop : ℕ
  mmr_tiers : List MmrTier
  deriving DecidableEq, Repr

/-- `backend/runtime.py` account record; the position service only touches
`balance`, the portfolio service recomputes the derived fields. -/
structure Account where
  balance : ℚ
  equity : ℚ := 0
  upl : ℚ := 0
  margin_used : ℚ := 0
  free_margin : ℚ := 0
  deriving DecidableEq, Repr

/-- The single-strategy slice of the mutable state that
`PositionService` touches, plus its persistence. -/
structure PSState where
  position : Option PositionState
  account : Account
  cooldown : ℕ
  openRow : Option PositionRow
  closedRows : List PositionRow := []
  trades : List Trade := []
  ledger : List LedgerEntry := []
  nextId : ℕ := 1
  deriving DecidableEq, Repr

/-- `PortfolioService.calc_realized_pnl`. -/
def calc_realized_pnl (pos : PositionState) (price qty : ℚ) : ℚ :=
  if pos.side = "LONG" then (price - pos.entry_price) * qty
  else (pos.entry_price - price) * qty

/-- Stable insertion into a tier list sorted ascending by `notional_usdt`
(the `sorted(..., key=...)` call in `PortfolioService._select_mmr`). -/
def insertTier (t : MmrTier) : List MmrTier → List MmrTier
  | [] => [t]
  | a :: rest =>
      if t.notional_usdt ≤ a.notional_usdt then t :: a :: rest
      else a :: insertTier t rest

def sortTiers : List MmrTier → List MmrTier
  | [] => []
  | a :: rest => insertTier a (sortTiers rest)

/-- `PortfolioService._select_mmr`: first tier (ascending) whose
`notional_usdt` bounds the notional, else the last tier.  (On an empty
tier list the Python indexes `tiers[-1]` and raises; configurations always
carry at least one tier, and the theorems below only instantiate nonempty
tier lists, so the fallback value is never reached.) -/
def select_mmr (tiers : List MmrTier) (notional : ℚ) : ℚ × ℚ :=
  let sorted := sortTiers tiers
  match sorted.find? (fun t => notional ≤ t.notional_usdt) with
  | some t => (t.mmr, t.maint_amount)
  | none =>
      match sorted.getLast? with
      | some t => (t.mmr, t.maint_amount)
      | none => (0, 0)

/-- `PortfolioService.calc_liq_price`, reading the (possibly just set)
position of the strategy. -/
def calc_liq_price (cfg : SimCfg) (position : Option PositionState)
    (entry_price : ℚ) (side : String) : ℚ :=
  let lev := cfg.max_leverage
  let qty : ℚ := match position with | some p => p.qty | none => 0
  if qty ≤ 0 then entry_price
  else
    let notional_entry := entry_price * qty
    let m := select_mmr cfg.mmr_tiers notional_entry
    let margin := notional_entry / lev
    if side = "LONG" then
      let num := margin - entry_price * qty - m.2
      let denom := (m.1 - 1) * qty
      if denom ≠ 0 then num / denom else entry_price
    else
      let num := margin + entry_price * qty - m.2
      let denom := (1 + m.1) * qty
      if denom ≠ 0 then num / denom else entry_price

/-- `PositionService.open_position`: a no-op when an open position exists;
otherwise sizes by
`notional_cap = min(max_position_notional, balance·max_position_pct_equity·leverage)`,
`qty = notional_cap/entry_price`, debits the entry fee from the balance,
persists the OPEN row and the ENTRY trade, and appends the negative fee
ledger entry referencing the trade id.  (The stream events and the alert
touch no state modelled here.) -/
def open_position (cfg : SimCfg) (st : PSState) (sid : String)
    (sig : EntrySignal) (now_ms : Int) : PSState :=
  if st.position.isSome then st
  else
    let acc := st.account
    let notional_cap :=
      min cfg.max_position_notional
        (acc.balance * cfg.max_position_pct_equity * cfg.max_leverage)
    let qty := notional_cap / sig.entry_price
    let notional := qty * sig.entry_price
    let fee := notional * cfg.fee_rate
    let margin := notional / cfg.max_leverage
    let pos : PositionState :=
      { side := sig.side, entry_price := sig.entry_price, qty := qty,
        stop_price := sig.stop_price, tp1_price := sig.tp1_price,
        tp2_price := sig.tp2_price, tp1_hit := false }
    -- `self._positions[sid] = pos` precedes the `calc_liq_price` call.
    let liq := calc_liq_price cfg (some pos) sig.entry_price sig.side
    let pos_id := st.nextId
    let row : PositionRow :=
      { position_id := pos_id, strategy := sid, symbol := cfg.symbol,
        side := sig.side, qty := qty, entry_price := sig.entry_price,
        entry_time := now_ms, leverage := ⌊cfg.max_leverage⌋, margin := margin,
        stop_price := some sig.stop_price, tp1_price := some sig.tp1_price,
        tp2_price := some sig.tp2_price, status := "OPEN",
        realized_pnl := 0, fees_total := fee, liq_price := some liq,
        created_at := now_ms, updated_at := now_ms }
    let trade_id := st.trades.length + 1
    let trade : Trade :=
      { strategy := sid, symbol := cfg.symbol, position_id := pos_id,
        side := if sig.side = "LONG" then "BUY" else "SELL",
        trade_type := "ENTRY", price := sig.entry_price, qty := qty,
        notional := notional, fee_amount := fee, fee_rate := cfg.fee_rate,
        timestamp := now_ms, reason := sig.reason, created_at := now_ms }
    let feeEntry : LedgerEntry :=
      { strategy := sid, timestamp := now_ms, type := "fee", amount := -fee,
        currency := "USDT", symbol := cfg.symbol, ref := toString trade_id,
        note := "entry fee", created_at := now_ms }
    { st with position := some pos,
              account := { acc with balance := acc.balance - fee },
              openRow := some row, nextId := st.nextId + 1,
              trades := st.trades ++ [trade],
              ledger := st.ledger ++ [feeEntry] }

/-- The body of `PositionService.close_by_action` after the TP2→TP1
synthesis block (source lines 206–358): everything from reading the
account to the final branch.  A `TP1` action on a position whose `tp1_hit`
flag is already set is discarded before any state is touched.  When the
code would subscript a `None` row (`row["entry_time"]` /
`row["realized_pnl"]` with no OPEN row in the store) the embedding returns
a `TypeError`; no settled claim depends on the state after that crash. -/
def close_step (cfg : SimCfg) (st : PSState) (sid : String) (a : ExitAction)
    (now_ms : Int) : Except PyError PSState :=
  match st.position with
  | none => .ok st
  | some pos =>
      let qty_to_close :=
        if a.action = "TP1" ∧ pos.tp1_hit = false then pos.qty * (1/2)
        else pos.qty
      if a.action = "TP1" ∧ pos.tp1_hit = true then .ok st
      else
        let realized := calc_realized_pnl pos a.price qty_to_close
        let notional := qty_to_close * a.price
        let fee := notional * cfg.fee_rate
        let pos_id : ℕ :=
          match st.openRow with | some row => row.position_id | none => 0
        let trade_id := st.trades.length + 1
        let trade : Trade :=
          { strategy := sid, symbol := cfg.symbol, position_id := pos_id,
            side := if pos.side = "LONG" then "SELL" else "BUY",
            trade_type := "EXIT", price := a.price, qty := qty_to_close,
            notional := notional, fee_amount := fee, fee_rate := cfg.fee_rate,
            timestamp := now_ms, reason := a.reason, created_at := now_ms }
        let feeEntry : LedgerEntry :=
          { strategy := sid, timestamp := now_ms, type := "fee",
            amount := -fee, currency := "USDT", symbol := cfg.symbol,
            ref := toString trade_id, note := "exit fee", created_at := now_ms }
        let st1 : PSState :=
          { st with
            account := { st.account with
                         balance := st.account.balance + (realized - fee) },
            trades := st.trades ++ [trade],
            ledger := st.ledger ++ [feeEntry] }
        if a.action = "TP1" then
          match st.openRow with
          | none => .error (.typeError "NoneType is not subscriptable")
          | some row =>
              let pos' : PositionState :=
                { pos with qty := pos.qty - qty_to_close,
                           tp1_hit := true, stop_price := pos.entry_price }
              let row' : PositionRow :=
                { row with qty := pos'.qty,
                           stop_price := some pos'.stop_price,
                           tp1_price := some pos'.tp1_price,
                           tp2_price := some pos'.tp2_price,
                           status := "OPEN",
                           realized_pnl := row.realized_pnl + realized,
                           fees_total := row.fees_total + fee,
                           updated_at := now_ms }
              .ok { st1 with position := some pos', openRow := some row' }
        else
          match st.openRow with
          | none => .error (.typeError "NoneType is not subscriptable")
          | some row =>
              let rowClosed : PositionRow :=
                { row with status := "CLOSED",
                           realized_pnl := row.realized_pnl + realized,
                           fees_total := row.fees_total + fee,
                           close_time := some now_ms,
                           close_reason := some a.reason,
                           updated_at := now_ms }
              let cooldown :=
                if a.action = "STOP" then cfg.cooldown_after_stop else st.cooldown
              let pnlEntry : LedgerEntry :=
                { strategy := sid, timestamp := now_ms, type := "realized_pnl",
                  amount := realized, currency := "USDT", symbol := cfg.symbol,
                  ref := toString trade_id, note := a.reason,
                  created_at := now_ms }
              -- `self._positions[sid] = None` precedes the forced
              -- `apply_funding(force=True, sid=sid)` call, so the forced
              -- funding pass finds no open position for `sid` and writes no
              -- ledger entry (shown by the portfolio model below); its
              -- status/equity side effects live outside this state slice.
              .ok { st1 with
                    position := none, openRow := none,
                    closedRows := st.closedRows ++ [rowClosed],
                    cooldown := cooldown,
                    ledger := st1.ledger ++ [pnlEntry] }

/-- `PositionService.close_by_action`.  The source's one recursive call
(`TP2` with `tp1_hit=false` first records a synthetic `TP1` close, guarded
by `abs(tp1 − tp2) > 1e-9`; the dataclass tp1/tp2 prices are never `None`,
so the two `is not None` conjuncts always hold) is unfolded here: the
synthesized action is a `TP1`, whose branch never recurses further. -/
def close_by_action (cfg : SimCfg) (st : PSState) (sid : String)
    (a : ExitAction) (now_ms : Int) : Except PyError PSState :=
  match st.position with
  | none => .ok st
  | some pos =>
      if a.action = "TP2" ∧ pos.tp1_hit = false then do
        let st1 ←
          if |pos.tp1_price - pos.tp2_price| > 1 / 1000000000 then
            close_step cfg st sid
              { action := "TP1", price := pos.tp1_price, reason := "tp1" } now_ms
          else .ok st
        match st1.position with
        | none => .ok st1
        | some _ => close_step cfg st1 sid a now_ms
      else
        close_step cfg st sid a now_ms

/-- The per-strategy body of `PositionService.load_open_positions`, given
the row the lookup resolved (the persisted `positions` row has no
`tp1_hit` column, and the cooldown map is not persisted at all). -/
def load_open_position (row : Option PositionRow) : Option PositionState × ℕ :=
  match row with
  | none => (none, 0)
  | some r =>
      (some { side := r.side, entry_price := r.entry_price, qty := r.qty,
              stop_price := r.stop_price.getD 0,
              tp1_price := r.tp1_price.getD 0,
              tp2_price := r.tp2_price.getD 0,
              tp1_hit := false }, 0)

/-! ## Concrete fixtures (the spec's S1 scenario values) -/

/-- A closed bar with all four prices equal to `c`, used as a concrete
test input. -/
def mkBar (c : ℚ) : KlineBar :=
  { open_time := 0, close_time := 0, open_ := c, high := c, low := c,
    close := c, volume := 0, trades := 0, is_closed := true, source := "ws" }

/-- The spec's S1 configuration: `fee_rate=0.0004`, `leverage=20`,
`max_position_pct_equity=1.0`, `max_position_notional=20000`. -/
def cfgS1 : SimCfg :=
  { symbol := "BTCUSDT", fee_rate := 4/10000, max_leverage := 20,
    max_position_notional := 20000, max_position_pct_equity := 1,
    cooldown_after_stop := 4, mmr_tiers := [⟨50000, 4/1000, 0⟩] }

/-- A fresh account with `initial_capital=1000` and no position. -/
def stEmpty : PSState :=
  { position := none, account := { balance := 1000 }, cooldown := 0,
    openRow := none }

/-- S1 entry signal: LONG at 100, stop 95, tp1 105, tp2 110. -/
def sigS1 : EntrySignal :=
  { side := "LONG", entry_price := 100, stop_price := 95, tp1_price := 105,
    tp2_price := 110, reason := "entry" }

/-- The S1 open position (`qty=200`). -/
def posS1 : PositionState :=
  { side := "LONG", entry_price := 100, qty := 200, stop_price := 95,
    tp1_price := 105, tp2_price := 110, tp1_hit := false }

/-- The persisted OPEN row matching `posS1`. -/
def rowS1 : PositionRow :=
  { position_id := 1, strategy := "s", symbol := "BTCUSDT", side := "LONG",
    qty := 200, entry_price := 100, entry_time := 0, leverage := 20,
    margin := 1000, stop_price := some 95, tp1_price := some 105,
    tp2_price := some 110, status := "OPEN", realized_pnl := 0,
    fees_total := 8, liq_price := some 0, created_at := 0, updated_at := 0 }

/-- The in-memory state after the S1 entry. -/
def stWithPos : PSState :=
  { position := some posS1, account := { balance := 992 }, cooldown := 0,
    openRow := some rowS1, nextId := 2 }

/-- `posS1` with equal TP targets (`tp1 = tp2 = 110`), as the
`simple_rsi_overtrade_strategy` produces. -/
def posEq : PositionState := { posS1 with tp1_price := 110 }

/-- `stWithPos` holding `posEq` instead. -/
def stWithPosEq : PSState := { stWithPos with position := some posEq }

/-! ## The funding settlement path

`backend/services/portfolio_service.py`, `apply_funding`, over the
multi-strategy state it touches: the accounts and positions dicts and the
`ledger` table.  The upstream funding-rate fetch result is passed as a
parameter (`none` models a failed fetch or an empty payload, both of which
return before touching any state). -/

/-- The multi-strategy portfolio state slice read and written by the
funding path. -/
structure PortfolioState where
  accounts : List (String × Account)
  positions : List (String × Option PositionState)
  ledger : List LedgerEntry
  deriving DecidableEq, Repr

/-- `price_hint or self._last_price or pos.entry_price` with Python's
falsiness: `None` and `0.0` both fall through to the next alternative. -/
def pyOrPrice (hint : Option ℚ) (last : ℚ) (entry : ℚ) : ℚ :=
  match hint with
  | some h => if h = 0 then (if last = 0 then entry else last) else h
  | none => if last = 0 then entry else last

/-- One iteration of the strategy loop in `apply_funding` (source lines
183–216): skip when the strategy has no open position; SELECT the ledger
for `(strategy, type='funding', ref=fundingTime)` and skip when a row
exists *and* the call is not forced; otherwise credit
`pnl = qty·price·rate·sign(side)` to the balance and append the funding
ledger entry. -/
def fundingStep (symbol : String) (fr_time : Int) (rate : ℚ) (force : Bool)
    (price_hint : Option ℚ) (last_price : ℚ) (now_ms : Int)
    (st : PortfolioState) (strategy_id : String) : PortfolioState :=
  match dictGet st.positions strategy_id with
  | none => st
  | some none => st
  | some (some pos) =>
      let rows := st.ledger.filter (fun e =>
        e.strategy = strategy_id ∧ e.type = "funding" ∧ e.ref = toString fr_time)
      if rows ≠ [] ∧ force = false then st
      else
        let price := pyOrPrice price_hint last_price pos.entry_price
        let notional := pos.qty * price
        let pnl := notional * rate * (if pos.side = "LONG" then 1 else -1)
        let accounts := st.accounts.map (fun p =>
          if p.1 = strategy_id then
            (p.1, { p.2 with balance := p.2.balance + pnl })
          else p)
        let entry : LedgerEntry :=
          { strategy := strategy_id, timestamp := fr_time, type := "funding",
            amount := pnl, currency := "USDT", symbol := symbol,
            ref := toString fr_time, note := "rate", created_at := now_ms }
        { st with accounts := accounts, ledger := st.ledger ++ [entry] }

/-- `PortfolioService.apply_funding(force, price_hint, sid)`.  The trailing
`update_status` / `snapshot_equity` calls touch no state modelled here. -/
def apply_funding (symbol : String) (st : PortfolioState)
    (fetched : Option (Int × ℚ)) (now_ms : Int) (force : Bool)
    (price_hint : Option ℚ) (last_price : ℚ) (sid : Option String) :
    PortfolioState :=
  match fetched with
  | none => st
  | some fr =>
      let fr_time := fr.1
      let rate := fr.2
      if force = false ∧ |now_ms - fr_time| > 3 * 60 * 1000 then st
      else
        let ids : List String :=
          match sid with
          | some s => [s]
          | none => st.accounts.map (fun p => p.1)
        ids.foldl
          (fundingStep symbol fr_time rate force price_hint last_price now_ms) st

/-- The tail of a full (non-TP1) `close_by_action` as seen by the ledger
and the positions dict: the exit-fee and realized-pnl entries are
appended, the position entry is cleared (`self._positions[sid] = None`,
line 343), and only then `apply_funding(force=True, price_hint=price,
sid=sid)` is awaited (line 358). -/
def full_close_funding (symbol : String) (st : PortfolioState) (sid : String)
    (fee realized : ℚ) (tradeRef reason : String) (price : ℚ)
    (fetched : Option (Int × ℚ)) (now_ms : Int) (last_price : ℚ) :
    PortfolioState :=
  let feeE : LedgerEntry :=
    { strategy := sid, timestamp := now_ms, type := "fee", amount := -fee,
      currency := "USDT", symbol := symbol, ref := tradeRef,
      note := "exit fee", created_at := now_ms }
  let pnlE : LedgerEntry :=
    { strategy := sid, timestamp := now_ms, type := "realized_pnl",
      amount := realized, currency := "USDT", symbol := symbol,
      ref := tradeRef, note := reason, created_at := now_ms }
  let st1 : PortfolioState :=
    { st with positions := dictInsert st.positions sid none,
              ledger := st.ledger ++ [feeE, pnlE] }
  apply_funding symbol st1 fetched now_ms true (some price) last_price (some sid)

/-- An entry-fee ledger write (`open_position`) or an exit-fee write
(TP1 partial close), both of which leave a position in place. -/
def fee_ledger_entry (symbol sid : String) (fee : ℚ) (tradeRef note : String)
    (now_ms : Int) : LedgerEntry :=
  { strategy := sid, timestamp := now_ms, type := "fee", amount := -fee,
    currency := "USDT", symbol := symbol, ref := tradeRef, note := note,
    created_at := now_ms }

/-- The ledger-writing events of a run, as the source invokes them: the
60-second poll (`funding_loop` → `apply_funding()`, unforced and
unfiltered), a full position close (clear position, then forced funding
pass), an entry (`open_position`: set position, append entry fee), and a
TP1 partial close (replace position, append exit fee). -/
inductive PortfolioEvent where
  | poll (fetched : Option (Int × ℚ)) (now_ms : Int) (last_price : ℚ)
  | fullClose (sid : String) (fee realized : ℚ) (tradeRef reason : String)
      (price : ℚ) (fetched : Option (Int × ℚ)) (now_ms : Int) (last_price : ℚ)
  | openEntry (sid : String) (pos : PositionState) (fee : ℚ)
      (tradeRef : String) (now_ms : Int)
  | tp1Close (sid : String) (pos' : PositionState) (fee : ℚ)
      (tradeRef : String) (now_ms : Int)

def PortfolioState.step (symbol : String) (st : PortfolioState) :
    PortfolioEvent → PortfolioState
  | .poll fetched now_ms last_price =>
      apply_funding symbol st fetched now_ms false none last_price none
  | .fullClose sid fee realized tradeRef reason price fetched now_ms last_price =>
      full_close_funding symbol st sid fee realized tradeRef reason price
        fetched now_ms last_price
  | .openEntry sid pos fee tradeRef now_ms =>
      { st with positions := dictInsert st.positions sid (some pos),
                ledger := st.ledger ++
                  [fee_ledger_entry symbol sid fee tradeRef "entry fee" now_ms] }
  | .tp1Close sid pos' fee tradeRef now_ms =>
      { st with positions := dictInsert st.positions sid (some pos'),
                ledger := st.ledger ++
                  [fee_ledger_entry symbol sid fee tradeRef "exit fee" now_ms] }

def PortfolioState.run (symbol : String) (st : PortfolioState)
    (evs : List PortfolioEvent) : PortfolioState :=
  evs.foldl (PortfolioState.step symbol) st

/-- Invariant (I3): the funding rows of the ledger are duplicate-free on
the `(strategy, ref)` key. -/
def FundingOnce (L : List LedgerEntry) : Prop :=
  (L.filter (fun e => e.type = "funding")).Pairwise
    (fun a b => ¬(a.strategy = b.strategy ∧ a.ref = b.ref))

/-! ## MarketStateManager (`backend/marketdata/state.py`) -/

/-- `backend/strategy/interfaces.py`, `Indicators1h`.  The fields are
annotated `float` but the 1h close path assigns `IndicatorResult.value`
into them, which may be `None`; the embedding keeps them optional. -/
structure Indicators1h where
  ema20 : Option ℚ
  ema60 : Option ℚ
  rsi14 : Option ℚ
  close : ℚ
  deriving DecidableEq, Repr

/-- `backend/strategy/interfaces.py`, `StrategyContext` (the fields the
state manager fills; `position`, `cooldown_bars_remaining` and
`meta["params"]` are overwritten by the runner before use, and
`features`/`meta` carry no data on this path). -/
structure StrategyContext where
  timestamp : Int
  interval : String
  price : ℚ
  close_15m : ℚ
  low_15m : ℚ
  high_15m : ℚ
  structure_stop : Option ℚ := none
  position : Option PositionState := none
  cooldown_bars_remaining : ℕ := 0
  indicators : List (String × Option ℚ) := []
  history : List (String × List (Option ℚ)) := []
  deriving DecidableEq, Repr

/-- The mutable fields of `MarketStateManager` used by `on_kline_close`. -/
structure MSState where
  engine : IndicatorEngine
  ind_1h_map : List (String × Indicators1h) := []
  last_rsi_15m : List (String × Option ℚ) := []
  prev_macd_hist_15m : List (String × Option ℚ) := []
  prev2_macd_hist_15m : List (String × Option ℚ) := []
  prev_ema20_15m : List (String × Option ℚ) := []
  prev_ema60_15m : List (String × Option ℚ) := []
  last_ema20_15m : List (String × Option ℚ) := []
  last_ema60_15m : List (String × Option ℚ) := []
  deriving DecidableEq, Repr

/-- What `on_kline_close` returns (stream updates plus the per-strategy
contexts). -/
structure CloseOutput where
  stream_ind_1h : Option Indicators1h := none
  stream_ind_15m : List (String × Option ℚ) := []
  strategies : List (String × StrategyContext) := []
  deriving DecidableEq, Repr

/-- The 1h branch of `on_kline_close`, one strategy: cache the latest 1h
indicator tuple when `ema_fast` / `ema_slow` / `rsi` results are present
(the `if not …` guards test object truthiness, and result objects are
always truthy when present). -/
def ms1hStep (bar : KlineBar) (st : MSState)
    (p : String × List (String × IndicatorResult)) : MSState :=
  match dictGet p.2 "ema_fast", dictGet p.2 "ema_slow", dictGet p.2 "rsi" with
  | some ef, some es, some rs =>
      let ind1 : Indicators1h :=
        { ema20 := ef.value, ema60 := es.value, rsi14 := rs.value,
          close := bar.close }
      { st with ind_1h_map := dictInsert st.ind_1h_map p.1 ind1 }
  | _, _, _ => st

/-- The 15m per-strategy loop of `on_kline_close` (source lines 260–325).
A strategy is skipped unless its cached 1h map and its `ema_fast` /
`ema_slow` 15m results are available.  For a strategy that qualifies, the
source builds the indicator and history maps and the `StrategyContext`
(lines 272–321) and then executes
`self.last_rsi_15m[sid] = snap.rsi` (line 323) — but the local name
`snap` is bound only by the 1h branch's loop, which does not run when
`interval == "15m"`, so the statement raises `NameError` and none of the
assembled contexts is ever returned.  The state writes preceding the raise
are unobservable through the (propagated) exception and are not modelled. -/
def msClose15mLoop (bar : KlineBar) :
    List (String × List (String × IndicatorResult)) →
    MSState × CloseOutput → Except PyError (MSState × CloseOutput)
  | [], acc => .ok acc
  | (sid, res_map) :: rest, (st, out) =>
      match dictGet st.ind_1h_map sid with
      | none => msClose15mLoop bar rest (st, out)
      | some _ind1 =>
          match dictGet res_map "ema_fast", dictGet res_map "ema_slow" with
          | some _ema_fast, some _ema_slow => .error (.nameError "snap")
          | _, _ => msClose15mLoop bar rest (st, out)

/-- `MarketStateManager.on_kline_close(interval, bar)`.  Every interval
first commits the bar through the engine; `1h` caches the per-strategy 1h
tuples and streams the first one; `15m` runs the per-strategy loop above;
other intervals are ignored. -/
def MarketStateManager.on_kline_close (st : MSState) (interval : String)
    (bar : KlineBar) : Except PyError (MSState × CloseOutput) :=
  let upd := st.engine.update_on_close interval bar
  let st0 : MSState := { st with engine := upd.1 }
  let snaps := upd.2
  if interval = "1h" then
    let st' := snaps.foldl (ms1hStep bar) st0
    .ok (st', { stream_ind_1h := (st'.ind_1h_map.head?).map (fun q => q.2) })
  else if interval = "15m" then
    msClose15mLoop bar snaps (st0, {})
  else
    .ok (st0, {})

/-! ## StrategyRunner (`backend/strategy/runner.py`) -/

/-- What one strategy's Python calls do on a 15m close, as data: the
outcome of `describe_conditions` (a checklist, abstracted to its rendered
lines, or a raised exception) and of `on_bar_close` (an optional decision,
or a raised exception). -/
structure StratOnClose where
  sid : String
  describe : Except String (List String)
  decision : Except String (Option (EntrySignal ⊕ ExitAction))
  deriving Repr

/-- The observable effects of `StrategyRunner.on_kline_close`. -/
structure RunnerOutput where
  published : List (String × List String) := []
  dispatched : List (String × Option (EntrySignal ⊕ ExitAction)) := []
  cooldown_decremented : List String := []
  status_updated : Bool := false
  equity_snapshotted : Bool := false
  deriving DecidableEq, Repr

/-- The per-strategy loop of `StrategyRunner.on_kline_close` (source lines
188–219).  `describe_conditions` is wrapped in `try/except` (lines
197–210): on a crash the condition list is replaced with an error
placeholder and the loop continues.  `strat.on_bar_close(ctx)` (line 213)
has no guard: an exception raised there propagates out of
`on_kline_close`, skipping the remaining strategies, the cooldown
decrement, and the final `update_status` / `snapshot_equity` calls. -/
def runnerLoop : List StratOnClose → RunnerOutput → Except String RunnerOutput
  | [], out => .ok out
  | b :: rest, out =>
      let conditions :=
        match b.describe with
        | .ok c => c
        | .error e => ["error: " ++ e]
      let out1 : RunnerOutput :=
        { out with published := out.published ++ [(b.sid, conditions)] }
      match b.decision with
      | .error e => .error e
      | .ok d =>
          let out2 : RunnerOutput :=
            { out1 with
              dispatched := out1.dispatched ++ [(b.sid, d)],
              cooldown_decremented := out1.cooldown_decremented ++ [b.sid] }
          runnerLoop rest out2

/-- `StrategyRunner.on_kline_close` over the strategies' behaviors: run the
per-strategy loop, then update account status and snapshot equity (lines
221–222) — which therefore only happens if no strategy's `on_bar_close`
raised. -/
def StrategyRunner.on_kline_close (strats : List StratOnClose) :
    Except String RunnerOutput := do
  let out ← runnerLoop strats {}
  pure { out with status_updated := true, equity_snapshotted := true }

/-! ## Further concrete fixtures -/

/-- Strategy `A`'s spec list as the legacy adapter builds it for a
dual-timeframe strategy: fast/slow EMAs on both intervals plus a 1h RSI. -/
def specsA : List Spec :=
  [ .ema { name := "ema_fast", interval := "15m", length := 20 },
    .ema { name := "ema_slow", interval := "15m", length := 60 },
    .ema { name := "ema_fast", interval := "1h", length := 20 },
    .ema { name := "ema_slow", interval := "1h", length := 60 },
    .rsi { name := "rsi", interval := "1h", length := 14 } ]

/-- A fresh `MarketStateManager` owning strategy `A`'s engine. -/
def msFix : MSState := { engine := { specs := [("A", specsA)] } }

/-- A strategy whose `describe_conditions` succeeds but whose
`on_bar_close` raises. -/
def runnerA : StratOnClose :=
  { sid := "A", describe := .ok ["ok"], decision := .error "boom" }

/-- A healthy strategy. -/
def runnerB : StratOnClose :=
  { sid := "B", describe := .ok ["ok"], decision := .ok none }

/-- A strategy whose `describe_conditions` raises but whose
`on_bar_close` succeeds. -/
def runnerC : StratOnClose :=
  { sid := "C", describe := .error "bad", decision := .ok none }

/-- A one-strategy portfolio with no open position and an empty ledger. -/
def pstFix : PortfolioState :=
  { accounts := [("A", { balance := 1000 })], positions := [("A", none)],
    ledger := [] }

/-- A run exercising every funding caller: entry, two polls at the same
funding time, a full close (which forces a funding pass), a later poll. -/
def evsFix : List PortfolioEvent :=
  [ .openEntry "A" posS1 8 "1" 0,
    .poll (some (1000, 1/10000)) 1000 100,
    .poll (some (1000, 1/10000)) 2000 100,
    .fullClose "A" 4 500 "2" "tp2" 110 (some (1000, 1/10000)) 3000 110,
    .poll (some (25000000, 1/10000)) 25000100 110 ]

/-! ### Shared reduction helpers -/

lemma exceptBind_ok {α β ε : Type} (a : α) (f : α → Except ε β) :
    (Except.ok a >>= f) = f a := rfl

lemma exceptMap_ok {α β ε : Type} (f : α → β) (a : α) :
    Except.map f (Except.ok a : Except ε α) = Except.ok (f a) := rfl

lemma exceptBind_ok' {α β ε : Type} (a : α) (f : α → Except ε β) :
    (Except.ok a : Except ε α).bind f = f a := rfl

/-! ### Claims about the indicator layer (C2, C7, C8) -/

lemma previewSpecList_eq (interval : String) (bar : KlineBar) (l : List Spec) :
    previewSpecList interval bar l =
      if l.any (fun s => s.interval = interval) then
        Except.error (PyError.attributeError "preview")
      else Except.ok [] := by
  induction l with
  | nil => simp [previewSpecList]
  | cons a rest ih =>
      by_cases h : a.interval = interval
      · simp [previewSpecList, h, Spec.preview]
        rfl
      · simp [previewSpecList, h, ih]

lemma previewStrategies_eq (interval : String) (bar : KlineBar)
    (L : List (String × List Spec)) :
    previewStrategies interval bar L =
      if L.any (fun p => p.2.any (fun s => s.interval = interval)) then
        Except.error (PyError.attributeError "preview")
      else Except.ok [] := by
  induction L with
  | nil => simp [previewStrategies]
  | cons p rest ih =>
      by_cases h : p.2.any (fun s => s.interval = interval)
      · simp [previewStrategies, previewSpecList_eq, h]
        rfl
      · by_cases h2 : rest.any (fun q => q.2.any (fun s => s.interval = interval))
        · simp [previewStrategies, previewSpecList_eq, h, ih, h2]
          rfl
        · simp [previewStrategies, previewSpecList_eq, h, ih, h2]
          rfl

/-- Claim C2: the spec says `preview(bar)` returns the value `update(bar)`
would produce without committing, and that `IndicatorEngine.preview` is
well-defined for every matching spec.  In the code, none of the four spec
classes in `backend/indicators/specs.py` defines a `preview` method, so
`IndicatorEngine.preview` raises `AttributeError` as soon as one spec
matches the requested interval: preview is not well-defined at all. -/
theorem engine_preview_raises_attribute_error
    (e : IndicatorEngine) (interval : String) (bar : KlineBar)
    (sid : String) (l : List Spec) (s : Spec)
    (hmem : (sid, l) ∈ e.specs) (hs : s ∈ l) (hint : s.interval = interval) :
    e.preview interval bar = Except.error (PyError.attributeError "preview") := by
  have hc : e.specs.any (fun p => p.2.any (fun s => s.interval = interval)) = true := by
    refine List.any_eq_true.2 ⟨(sid, l), hmem, ?_⟩
    exact List.any_eq_true.2 ⟨s, hs, by simp [hint]⟩
  simp [IndicatorEngine.preview, previewStrategies_eq, hc]

/-- Witness for C2: a concrete engine holding one 15-minute EMA spec for
strategy `A`; its preview of a 15-minute bar raises. -/
theorem engine_preview_raises_attribute_error_witness :
    IndicatorEngine.preview
        { specs := [("A", [Spec.ema { name := "ema_fast", interval := "15m", length := 20 }])] }
        "15m" (mkBar 100)
      = Except.error (PyError.attributeError "preview") :=
  engine_preview_raises_attribute_error _ "15m" (mkBar 100) "A"
    [Spec.ema { name := "ema_fast", interval := "15m", length := 20 }]
    (Spec.ema { name := "ema_fast", interval := "15m", length := 20 })
    (by simp) (by simp) rfl

/-- Claim C7: the spec says the RSI update returns 100 whenever the updated
average loss is zero.  The code instead returns a null value: starting from
a fresh 14-period RSI spec, feeding closes 100 then 101 makes the updated
average loss zero, and the returned value is `None`, not 100 (the repo's
own legacy engine, `backend/indicators.py`, returns `100.0` in exactly this
case). -/
theorem rsiSpec_zero_avg_loss_value_none :
    (let s0 : RsiSpec := { name := "rsi", interval := "15m", length := 14 }
     let s1 := (s0.update (mkBar 100)).1
     let r := s1.update (mkBar 101)
     r.1.avg_loss = some 0 ∧ r.2.value = none ∧ r.2.value ≠ some 100) := by
  norm_num [RsiSpec.update, mkBar]
  exact Ne.symm (Option.some_ne_none (100 : ℚ))

/-- Counterexample for C8: the claim says every spec's value is null until
`warmup_bars` bars have been consumed, and in particular that an EMA spec
returns null on its first bar.  A fresh 20-period EMA spec declares
`warmup_bars = 21`, yet its very first update returns the seed value
(the bar's close), which is not null. -/
theorem ema_first_bar_value_not_null :
    (let s0 : EmaSpec := { name := "ema_fast", interval := "15m", length := 20 }
     s0.warmup_bars = 21 ∧
       ((s0.update (mkBar 100)).2).value = some 100 ∧
       ((s0.update (mkBar 100)).2).value ≠ none) := by
  decide

/-- Claim C8 as amended: for the EMA, MACD and ATR specs the result's value
is non-null on every update, from the very first bar on (each seeds its
state from the first bar); `warmup_bars` does not gate nullness.  Only the
RSI spec can return a null value. -/
theorem ema_macd_atr_value_always_some
    (se : EmaSpec) (sm : MacdSpec) (sa : AtrSpec) (bar : KlineBar) :
    ((se.update bar).2).value.isSome = true ∧
      ((sm.update bar).2).value.isSome = true ∧
      ((sa.update bar).2).value.isSome = true := by
  refine ⟨?_, ?_, ?_⟩ <;> simp [EmaSpec.update, MacdSpec.update, AtrSpec.update]

/-! ### Claims about the position service (C4, C5, C6, C10) -/

/-- Claim C4: a `TP1` action on an open position with `tp1_hit=false`
closes exactly half the quantity (one EXIT trade of `qty/2` at the action
price), leaves the position OPEN with the halved quantity,
`stop_price = entry_price` and `tp1_hit = true`, does not finalize
(no row is closed, no realized-pnl ledger entry is appended), and a
subsequent `TP1` on the resulting position changes nothing, so TP1 halves
the quantity exactly once. -/
theorem tp1_halves_exactly_once
    (cfg : SimCfg) (st : PSState) (sid : String) (pos : PositionState)
    (row : PositionRow) (a a2 : ExitAction) (now now2 : Int)
    (hpos : st.position = some pos) (hhit : pos.tp1_hit = false)
    (hrow : st.openRow = some row) (ha : a.action = "TP1")
    (ha2 : a2.action = "TP1") :
    (close_by_action cfg st sid a now).map (fun s => s.position) =
        .ok (some { pos with
                    qty := pos.qty - pos.qty * (1/2),
                    stop_price := pos.entry_price, tp1_hit := true }) ∧
      (close_by_action cfg st sid a now).map
          (fun s => s.openRow.map (fun r => (r.status, r.qty))) =
        .ok (some ("OPEN", pos.qty - pos.qty * (1/2))) ∧
      (close_by_action cfg st sid a now).map (fun s => s.closedRows) =
        .ok st.closedRows ∧
      (close_by_action cfg st sid a now).map
          (fun s => s.trades.map (fun t => (t.trade_type, t.price, t.qty))) =
        .ok (st.trades.map (fun t => (t.trade_type, t.price, t.qty)) ++
             [("EXIT", a.price, pos.qty * (1/2))]) ∧
      (close_by_action cfg st sid a now).map
          (fun s => s.ledger.filter (fun e => e.type = "realized_pnl")) =
        .ok (st.ledger.filter (fun e => e.type = "realized_pnl")) ∧
      (close_by_action cfg st sid a now).bind
          (fun s => close_by_action cfg s sid a2 now2) =
        close_by_action cfg st sid a now := by
  refine ⟨?_, ?_, ?_, ?_, ?_, ?_⟩ <;>
    simp [close_by_action, close_step, hpos, hhit, hrow, ha, ha2,
          List.filter_append, exceptBind_ok, exceptBind_ok', exceptMap_ok]

/-- Witness for C4 at the spec's S1 values (TP1 at 105 on the 200-qty
LONG): the position stays open with qty 100, stop 100, `tp1_hit`. -/
theorem tp1_halves_exactly_once_witness :
    (close_by_action cfgS1 stWithPos "s" ⟨"TP1", 105, "tp1"⟩ 0).map
        (fun s => s.position) =
      .ok (some { posS1 with
                  qty := posS1.qty - posS1.qty * (1/2),
                  stop_price := posS1.entry_price, tp1_hit := true }) :=
  (tp1_halves_exactly_once cfgS1 stWithPos "s" posS1 rowS1
    ⟨"TP1", 105, "tp1"⟩ ⟨"TP1", 105, "tp1"⟩ 0 0 rfl rfl rfl rfl rfl).1

/-- Counterexample for C5: the claim extends the TP1-synthesis rule to
positions whose `tp1_price` equals `tp2_price`.  On such a position
(`tp1 = tp2 = 110`, `tp1_hit=false`, qty 200) the guard
`abs(tp1 − tp2) > 1e-9` fails, so no TP1 close is synthesized: the
position is closed in full by a single EXIT trade of the whole quantity. -/
theorem tp2_equal_targets_skips_tp1 :
    (close_by_action cfgS1 stWithPosEq "s" ⟨"TP2", 110, "tp2"⟩ 0).map
        (fun s => (s.position,
                   s.trades.map (fun t => (t.trade_type, t.price, t.qty)))) =
      .ok (none, [("EXIT", 110, 200)]) := by
  have habs : ¬(|(110 : ℚ) - 110| > 1 / 1000000000) := by norm_num
  have hs1 : ¬(("TP2" : String) = "TP1") := by decide
  have hs2 : ¬(("TP2" : String) = "STOP") := by decide
  norm_num [close_by_action, close_step, stWithPosEq, stWithPos, posEq,
            posS1, rowS1, cfgS1, calc_realized_pnl, habs, hs1, hs2,
            exceptBind_ok, exceptBind_ok', exceptMap_ok]

/-- Claim C5 as amended: for an open position with `tp1_hit=false`, a TP2
action first performs a TP1 close at `tp1_price` (halving the position)
and then closes the remaining half — provided `tp1_price` and `tp2_price`
differ by more than the `1e-9` tie-break tolerance; when the two targets
coincide the position is closed in full directly, with no synthesized
TP1. -/
theorem tp2_synthesizes_tp1_first
    (cfg : SimCfg) (st : PSState) (sid : String) (pos : PositionState)
    (row : PositionRow) (a : ExitAction) (now : Int)
    (hpos : st.position = some pos) (hhit : pos.tp1_hit = false)
    (hrow : st.openRow = some row) (ha : a.action = "TP2")
    (hsep : |pos.tp1_price - pos.tp2_price| > 1 / 1000000000) :
    (close_by_action cfg st sid a now).map (fun s => s.position) = .ok none ∧
      (close_by_action cfg st sid a now).map
          (fun s => s.trades.map (fun t => (t.trade_type, t.price, t.qty))) =
        .ok (st.trades.map (fun t => (t.trade_type, t.price, t.qty)) ++
             [("EXIT", pos.tp1_price, pos.qty * (1/2)),
              ("EXIT", a.price, pos.qty - pos.qty * (1/2))]) ∧
      (close_by_action cfg st sid a now).map (fun s => s.openRow) =
        .ok none := by
  have hsep' : (1000000000 : ℚ)⁻¹ < |pos.tp1_price - pos.tp2_price| := by
    rw [← one_div]; exact hsep
  refine ⟨?_, ?_, ?_⟩ <;>
    simp [close_by_action, close_step, hpos, hhit, hrow, ha, hsep, hsep',
          exceptBind_ok, exceptBind_ok', exceptMap_ok]

/-- Witness for C5 at the spec's S3-style values (`tp1=105`, `tp2=110`):
TP2 on a fresh position empties it (via TP1 then TP2). -/
theorem tp2_synthesizes_tp1_first_witness :
    (close_by_action cfgS1 stWithPos "s" ⟨"TP2", 110, "tp2"⟩ 0).map
        (fun s => s.position) = .ok none :=
  (tp2_synthesizes_tp1_first cfgS1 stWithPos "s" posS1 rowS1
    ⟨"TP2", 110, "tp2"⟩ 0 rfl rfl rfl rfl (by norm_num [posS1])).1

/-- Claim C6: `open_position` is a no-op when a position is already open;
otherwise, at the spec's S1 values (`fee_rate=0.0004`, `leverage=20`,
`balance=1000`, `max_position_pct_equity=1`, `max_position_notional=20000`,
entry 100), the sizing yields qty 200, entry fee 8, balance 992 and an
OPEN row with margin 1000. -/
theorem open_position_noop_and_sizing :
    (∀ (cfg : SimCfg) (st : PSState) (sid : String) (sig : EntrySignal)
        (now : Int) (p : PositionState), st.position = some p →
        open_position cfg st sid sig now = st) ∧
      ((open_position cfgS1 stEmpty "s" sigS1 0).position = some posS1 ∧
       (open_position cfgS1 stEmpty "s" sigS1 0).account.balance = 992 ∧
       (open_position cfgS1 stEmpty "s" sigS1 0).openRow.map
           (fun r => (r.status, r.qty, r.margin)) =
         some ("OPEN", 200, 1000) ∧
       (open_position cfgS1 stEmpty "s" sigS1 0).trades.map
           (fun t => (t.trade_type, t.qty, t.fee_amount)) =
         [("ENTRY", 200, 8)]) := by
  constructor
  · intro cfg st sid sig now p hp
    simp [open_position, hp]
  · refine ⟨?_, ?_, ?_, ?_⟩ <;>
      norm_num [open_position, cfgS1, stEmpty, sigS1, posS1, calc_liq_price,
                select_mmr, sortTiers, insertTier, min_def]

/-- Witness for C6's no-op clause: opening on top of the S1 position
changes nothing. -/
theorem open_position_noop_witness :
    open_position cfgS1 stWithPos "s" sigS1 0 = stWithPos :=
  open_position_noop_and_sizing.1 cfgS1 stWithPos "s" sigS1 0 posS1 rfl

/-- Claim C10: `load_open_positions` recovers an OPEN row's side, entry
price, quantity and stop/tp prices (null prices becoming 0.0), but
unconditionally sets the in-memory `tp1_hit` flag to `false` and the
strategy's cooldown counter to 0, whatever the persisted row holds (the
`positions` table has no `tp1_hit` column and cooldowns are not persisted
at all); with no row, position and cooldown are likewise cleared. -/
theorem load_open_positions_resets_tp1_and_cooldown :
    (∀ r : PositionRow,
        (load_open_position (some r)).1.map (fun p => p.tp1_hit) =
            some false ∧
          (load_open_position (some r)).2 = 0 ∧
          (load_open_position (some r)).1.map
              (fun p => (p.side, p.entry_price, p.qty, p.stop_price,
                         p.tp1_price, p.tp2_price)) =
            some (r.side, r.entry_price, r.qty, r.stop_price.getD 0,
                  r.tp1_price.getD 0, r.tp2_price.getD 0)) ∧
      load_open_position none = (none, 0) :=
  ⟨fun _ => ⟨rfl, rfl, rfl⟩, rfl⟩

/-! ### Claims about the state manager and the runner (C1, C9) -/

/-- Claim C1: the spec says `on_kline_close('15m', bar)` terminates
normally and returns the per-strategy contexts.  In the code, the 15m
branch executes `self.last_rsi_15m[sid] = snap.rsi` (state.py line 323)
for every strategy whose `ema_fast`/`ema_slow` 15m results and cached 1h
map are available, but the local name `snap` is bound only by the 1h
branch's loop — so the call raises `NameError` instead of returning.
Concretely: after a 1h close has cached strategy A's 1h tuple, the next
15m close crashes. -/
theorem on_kline_close_15m_raises_name_error :
    (MarketStateManager.on_kline_close msFix "1h" (mkBar 100)).bind
        (fun r => MarketStateManager.on_kline_close r.1 "15m" (mkBar 101)) =
      .error (.nameError "snap") := by
  rfl

/-- Claim C9: the spec says the runner guards `describe_conditions`,
`on_bar_close` and `on_tick` per call, so one strategy's crash never
aborts the bar.  In `StrategyRunner.on_kline_close` only
`describe_conditions` is guarded (the placeholder clause below); the
`on_bar_close` call at runner.py line 213 is unguarded, so strategy A's
crash aborts the whole bar: strategy B is never invoked and no equity
snapshot is taken. -/
theorem on_bar_close_crash_aborts_bar :
    StrategyRunner.on_kline_close [runnerA, runnerB] = .error "boom" ∧
      StrategyRunner.on_kline_close [runnerC] =
        .ok { published := [("C", ["error: bad"])],
              dispatched := [("C", (none : Option (EntrySignal ⊕ ExitAction)))],
              cooldown_decremented := ["C"], status_updated := true,
              equity_snapshotted := true } :=
  ⟨rfl, rfl⟩

/-! ### Claim C3: funding is applied at most once per (strategy, fundingTime) -/

lemma dictGet_dictInsert {α : Type} (m : List (String × α)) (k : String)
    (v : α) : dictGet (dictInsert m k v) k = some v := by
  induction m with
  | nil => simp [dictGet, dictInsert]
  | cons a m ih =>
      by_cases ha : a.1 = k
      · by_cases hm : m.any (fun p => p.1 = k) <;>
          simp_all [dictGet, dictInsert]
      · by_cases hm : m.any (fun p => p.1 = k) <;>
          simp_all [dictGet, dictInsert]

lemma filter_funding_append (L : List LedgerEntry) (e : LedgerEntry)
    (he : ¬e.type = "funding") :
    (L ++ [e]).filter (fun x => x.type = "funding") =
      L.filter (fun x => x.type = "funding") := by
  simp [List.filter_append, he]

lemma FundingOnce_append_nonfunding (L : List LedgerEntry) (e : LedgerEntry)
    (he : ¬e.type = "funding") (h : FundingOnce L) : FundingOnce (L ++ [e]) := by
  unfold FundingOnce at h ⊢
  rw [filter_funding_append L e he]
  exact h

lemma FundingOnce_append_two_nonfunding (L : List LedgerEntry)
    (e1 e2 : LedgerEntry) (h1 : ¬e1.type = "funding")
    (h2 : ¬e2.type = "funding") (h : FundingOnce L) :
    FundingOnce (L ++ [e1, e2]) := by
  have hsplit : L ++ [e1, e2] = (L ++ [e1]) ++ [e2] := by simp
  rw [hsplit]
  exact FundingOnce_append_nonfunding _ _ h2
    (FundingOnce_append_nonfunding _ _ h1 h)

/-- Inserting the funding entry after the empty-SELECT check preserves the
invariant: the check guarantees no earlier funding row carries the same
`(strategy, ref)` key. -/
lemma FundingOnce_append_fresh (L : List LedgerEntry) (e : LedgerEntry)
    (htype : e.type = "funding")
    (hfresh : (L.filter fun x =>
        x.strategy = e.strategy ∧ x.type = "funding" ∧ x.ref = e.ref) = [])
    (h : FundingOnce L) : FundingOnce (L ++ [e]) := by
  unfold FundingOnce at h ⊢
  have hfil : (L ++ [e]).filter (fun x => x.type = "funding") =
      L.filter (fun x => x.type = "funding") ++ [e] := by
    simp [List.filter_append, htype]
  rw [hfil, List.pairwise_append]
  refine ⟨h, by simp, ?_⟩
  intro a ha b hb
  rw [List.mem_singleton] at hb
  simp only [List.mem_filter, decide_eq_true_eq] at ha
  intro hcontra
  have hmem : a ∈ L.filter fun x =>
      x.strategy = e.strategy ∧ x.type = "funding" ∧ x.ref = e.ref := by
    simp only [List.mem_filter, decide_eq_true_eq]
    exact ⟨ha.1, hb ▸ hcontra.1, ha.2, hb ▸ hcontra.2⟩
  rw [hfresh] at hmem
  exact absurd hmem (List.not_mem_nil a)

lemma fundingStep_preserves_unforced (symbol : String) (fr_time : Int)
    (rate : ℚ) (price_hint : Option ℚ) (last_price : ℚ) (now_ms : Int)
    (st : PortfolioState) (sid : String) (h : FundingOnce st.ledger) :
    FundingOnce
      (fundingStep symbol fr_time rate false price_hint last_price
        now_ms st sid).ledger := by
  rcases hpos : dictGet st.positions sid with _ | op
  · simpa [fundingStep, hpos] using h
  · rcases op with _ | pos
    · simpa [fundingStep, hpos] using h
    · by_cases hrows : (st.ledger.filter fun e =>
          e.strategy = sid ∧ e.type = "funding" ∧ e.ref = toString fr_time) = []
      · simp only [fundingStep, hpos, hrows]
        simp only [ne_eq, not_true_eq_false, false_and, if_false]
        exact FundingOnce_append_fresh st.ledger _ rfl hrows h
      · simp only [fundingStep, hpos]
        rw [if_pos ⟨hrows, by trivial⟩]
        exact h

lemma fundingFold_unforced (symbol : String) (fr_time : Int) (rate : ℚ)
    (price_hint : Option ℚ) (last_price : ℚ) (now_ms : Int) :
    ∀ (ids : List String) (st : PortfolioState), FundingOnce st.ledger →
      FundingOnce
        (ids.foldl
          (fundingStep symbol fr_time rate false price_hint last_price now_ms)
          st).ledger := by
  intro ids
  induction ids with
  | nil => intro st h; simpa using h
  | cons i ids ih =>
      intro st h
      simp only [List.foldl]
      exact ih _ (fundingStep_preserves_unforced symbol fr_time rate
        price_hint last_price now_ms st i h)

lemma apply_funding_unforced_preserves (symbol : String) (st : PortfolioState)
    (fetched : Option (Int × ℚ)) (now_ms : Int) (price_hint : Option ℚ)
    (last_price : ℚ) (sid : Option String) (h : FundingOnce st.ledger) :
    FundingOnce
      (apply_funding symbol st fetched now_ms false price_hint last_price
        sid).ledger := by
  rcases fetched with _ | fr
  · simpa [apply_funding] using h
  · by_cases htime : (180000 : ℤ) < |now_ms - fr.1|
    · simpa [apply_funding, htime] using h
    · have hgoal : apply_funding symbol st (some fr) now_ms false price_hint
          last_price sid =
          (match sid with
           | some s => [s]
           | none => st.accounts.map (fun p : String × Account => p.1)).foldl
            (fundingStep symbol fr.1 fr.2 false price_hint last_price now_ms)
            st := by
        simp [apply_funding, htime]
      rw [hgoal]
      exact fundingFold_unforced symbol fr.1 fr.2 price_hint last_price
        now_ms _ st h

lemma fundingStep_cleared (symbol : String) (fr_time : Int) (rate : ℚ)
    (force : Bool) (price_hint : Option ℚ) (last_price : ℚ) (now_ms : Int)
    (st : PortfolioState) (sid : String)
    (hp : dictGet st.positions sid = some none) :
    fundingStep symbol fr_time rate force price_hint last_price now_ms st sid
      = st := by
  simp [fundingStep, hp]

/-- A forced, strategy-filtered funding pass over a strategy whose
position entry holds `None` leaves the ledger untouched: the `force` flag
bypasses the SELECT check, but the `pos is None` guard fires first. -/
lemma apply_funding_forced_cleared (symbol : String) (st : PortfolioState)
    (fetched : Option (Int × ℚ)) (now_ms : Int) (price_hint : Option ℚ)
    (last_price : ℚ) (s : String)
    (hp : dictGet st.positions s = some none) :
    apply_funding symbol st fetched now_ms true price_hint last_price
      (some s) = st := by
  rcases fetched with _ | fr
  · rfl
  · simp [apply_funding, fundingStep, hp]

lemma full_close_funding_preserves (symbol : String) (st : PortfolioState)
    (sid : String) (fee realized : ℚ) (tradeRef reason : String) (price : ℚ)
    (fetched : Option (Int × ℚ)) (now_ms : Int) (last_price : ℚ)
    (h : FundingOnce st.ledger) :
    FundingOnce
      (full_close_funding symbol st sid fee realized tradeRef reason price
        fetched now_ms last_price).ledger := by
  unfold full_close_funding
  rw [apply_funding_forced_cleared _ _ _ _ _ _ _
    (by simpa using dictGet_dictInsert st.positions sid none)]
  exact FundingOnce_append_two_nonfunding _ _ _ (by simp) (by simp) h

lemma step_preserves (symbol : String) (st : PortfolioState)
    (ev : PortfolioEvent) (h : FundingOnce st.ledger) :
    FundingOnce (st.step symbol ev).ledger := by
  cases ev with
  | poll fetched now_ms last_price =>
      exact apply_funding_unforced_preserves symbol st fetched now_ms none
        last_price none h
  | fullClose sid fee realized tradeRef reason price fetched now_ms last_price =>
      exact full_close_funding_preserves symbol st sid fee realized tradeRef
        reason price fetched now_ms last_price h
  | openEntry sid pos fee tradeRef now_ms =>
      exact FundingOnce_append_nonfunding _ _ (by simp [fee_ledger_entry]) h
  | tp1Close sid pos' fee tradeRef now_ms =>
      exact FundingOnce_append_nonfunding _ _ (by simp [fee_ledger_entry]) h

/-- Claim C3: across any run of the funding settlement path — unforced
60-second polls, entries, TP1 partial closes, and full closes (each of
which clears the strategy's position *before* triggering the forced
`apply_funding(force=True, sid=sid)` pass, so the forced pass, whose
SELECT-check is bypassed by `force`, finds no open position and writes
nothing) — the ledger never holds two funding entries with the same
`(strategy, ref=fundingTime)` key. -/
theorem funding_entry_recorded_at_most_once (symbol : String)
    (st0 : PortfolioState) (evs : List PortfolioEvent)
    (h0 : FundingOnce st0.ledger) :
    FundingOnce (st0.run symbol evs).ledger := by
  induction evs generalizing st0 with
  | nil => simpa [PortfolioState.run] using h0
  | cons ev evs ih =>
      simp only [PortfolioState.run, List.foldl]
      exact ih (st0.step symbol ev) (step_preserves symbol st0 ev h0)

/-- Witness for C3: a concrete run — entry, two polls at one funding time
(the second is skipped by the SELECT check), a forced pass on full close
(skipped because the position was just cleared), and a later poll — ends
with a duplicate-free funding ledger. -/
theorem funding_entry_recorded_at_most_once_witness :
    FundingOnce (pstFix.run "BTCUSDT" evsFix).ledger :=
  funding_entry_recorded_at_most_once "BTCUSDT" pstFix evsFix
    (by simp [FundingOnce, pstFix])
